import Mathlib

/-!
Verification of the space-allocation simulator (contiguous directory-table
allocator `DT` and linked file-allocation-table allocator `FAT`).

The Python classes are embedded as executable Lean functions over explicit
state records.  Python integers become `Int`; the block array becomes
`List Int`; reads and writes go through `pyGet`/`pySet`, which implement
Python list indexing (negative indices wrap, out-of-range raises).  A result
of `none` models a raised exception (or, for the fuelled chain walks of the
linked allocator, a walk that never reaches a terminator).  The random
nonzero block fill drawn by the source (`random.randint`) is passed in as an
explicit `fill` argument: no branch of the source inspects a filled value
other than comparing it with 0, so every draw produces the same control
flow; concrete runs below instantiate the draw with the file id.
-/

/-- Python list index resolution: indices in `[0, len)` are used directly,
indices in `[-len, 0)` wrap to `len + i`, anything else raises. -/
def pyIdx (len : Nat) (i : Int) : Option Nat :=
  if 0 ≤ i then
    if i < (len : Int) then some i.toNat else none
  else
    if 0 ≤ (len : Int) + i then some ((len : Int) + i).toNat else none

/-- Python `blocks[i]` read. -/
def pyGet (l : List Int) (i : Int) : Option Int :=
  (pyIdx l.length i).bind fun j => l.get? j

/-- Python `blocks[i] = v` write. -/
def pySet (l : List Int) (i : Int) (v : Int) : Option (List Int) :=
  (pyIdx l.length i).map fun j => l.set j v

/-- `_byte_to_block` of both `dt.py` and `fat.py` (the two bodies are
identical): `bytes_count // block_size` if the remainder is zero, else one
more.  Python `//` and `%` are floor division and floor modulus, hence
`Int.fdiv` and `Int.fmod`. -/
def byteToBlock (block_size bytes_count : Int) : Int :=
  if bytes_count.fmod block_size = 0 then bytes_count.fdiv block_size
  else bytes_count.fdiv block_size + 1

/-! ## Contiguous allocator (`DT`, `dt.py`)

State: `blocks` is the occupancy array (0 = free, nonzero = occupied payload),
`dt` is the directory mapping a file id to its start pointer `p` (blocks) and
recorded length `s` (bytes), and `capacity`/`size` are the free/used block
counters. -/

/-- One directory-table record: the dict `{'p': start, 's': length}`. -/
structure DTFile where
  p : Int
  s : Int
deriving DecidableEq, Repr

/-- The fields of a `DT` instance. -/
structure DTState where
  block_count : Nat
  block_size : Int
  blocks : List Int
  dt : List (Int × DTFile)
  capacity : Int
  size : Int
deriving DecidableEq, Repr

/-- `DT.__init__`. -/
def dtInit (block_size : Int) (block_count : Nat) : DTState :=
  { block_count := block_count, block_size := block_size,
    blocks := List.replicate block_count 0, dt := [],
    capacity := (block_count : Int), size := 0 }

/-- Lookup in the directory dict. -/
def dtLookup (dt : List (Int × DTFile)) (k : Int) : Option DTFile :=
  (dt.find? fun e => decide (e.1 = k)).map fun e => e.2

/-- Overwrite the `s` field of the record with key `k`. -/
def dtSetS (dt : List (Int × DTFile)) (k v : Int) : List (Int × DTFile) :=
  dt.map fun e => if e.1 = k then (e.1, ⟨e.2.p, v⟩) else e

/-- Overwrite the `p` field of the record with key `k`. -/
def dtSetP (dt : List (Int × DTFile)) (k v : Int) : List (Int × DTFile) :=
  dt.map fun e => if e.1 = k then (e.1, ⟨v, e.2.s⟩) else e

/-- Loop body of `DT._first_fit`: scan `range(block_count)` keeping a count
of consecutive free blocks, stopping as soon as the count reaches the
request; returns the start of the run, or -1 if the scan completes. -/
def dtFirstFitGo (blocks : List Int) (i : Nat) (zeros need : Int) :
    Nat → Option Int
  | 0 => some (-1)
  | rem + 1 =>
    match pyGet blocks (i : Int) with
    | none => none
    | some b =>
      let z := if b = 0 then zeros + 1 else 0
      if z = need then some ((i : Int) + 1 - z)
      else dtFirstFitGo blocks (i + 1) z need rem

/-- `DT._first_fit`. -/
def dtFirstFit (blocks : List Int) (bc : Nat) (need : Int) : Option Int :=
  dtFirstFitGo blocks 0 0 need bc

/-- `DT._all_empty`: check that `length` blocks from `start` are all free,
also returning the number of free blocks seen.  The source loops
`while length`, so the embedding recurses on the (positive) length. -/
def dtAllEmptyGo (blocks : List Int) (bc : Nat) (start : Int) (zeros : Int) :
    Nat → Option (Bool × Int)
  | 0 => some (true, zeros)
  | len + 1 =>
    if start = (bc : Int) then some (false, zeros)
    else
      match pyGet blocks start with
      | none => none
      | some b =>
        if b ≠ 0 then some (false, zeros)
        else dtAllEmptyGo blocks bc (start + 1) (zeros + 1) len

/-- `DT._all_empty` entry point. -/
def dtAllEmpty (blocks : List Int) (bc : Nat) (start : Int) (len : Nat) :
    Option (Bool × Int) :=
  dtAllEmptyGo blocks bc start 0 len

/-- `DT._update_blocks`: every record whose start pointer is `≥ index` is
moved left by `offset`. -/
def dtUpdateBlocks (dt : List (Int × DTFile)) (index offset : Nat) :
    List (Int × DTFile) :=
  dt.map fun e =>
    if (index : Int) ≤ e.2.p then (e.1, ⟨e.2.p - (offset : Int), e.2.s⟩) else e

/-- Inner `while self.blocks[i] != 0` loop of `DT._compact`: shift the
occupied run starting at `j` left by `zeros`, zeroing the vacated cells,
until a free cell stops the walk.  Reading past the end of the list is the
IndexError the source can raise there; the fuel is called with
`blocks.length + 1`, which the walk (advancing `j` by 1 per step and
stopping no later than `j = blocks.length`) can never exhaust. -/
def dtShiftGo (blocks : List Int) (zeros j : Nat) :
    Nat → Option (List Int × Nat)
  | 0 => none
  | fuel + 1 =>
    match pyGet blocks (j : Int) with
    | none => none
    | some b =>
      if b = 0 then some (blocks, j)
      else
        match pySet blocks ((j : Int) - (zeros : Int)) b with
        | none => none
        | some b1 =>
          match pySet b1 (j : Int) 0 with
          | none => none
          | some b2 => dtShiftGo b2 zeros (j + 1) fuel

/-- Loop body of `DT._compact`: a `for i in range(block_count)` pass.  The
source mutates the loop variable inside the body (`i += 1` in the inner
while, then `i -= zeros`), which Python discards at the next iteration but
keeps after the last one; `ival` tracks that final value, from which the
return value `block_count - i` is computed. -/
def dtCompactGo (bc : Nat) (blocks : List Int) (dt : List (Int × DTFile))
    (ic zeros : Nat) (ival : Int) :
    Nat → Option (List Int × List (Int × DTFile) × Int)
  | 0 => some (blocks, dt, (bc : Int) - ival)
  | rem + 1 =>
    match pyGet blocks (ic : Int) with
    | none => none
    | some b =>
      if b = 0 then dtCompactGo bc blocks dt (ic + 1) (zeros + 1) (ic : Int) rem
      else if zeros = 0 then dtCompactGo bc blocks dt (ic + 1) 0 (ic : Int) rem
      else
        let d2 := dtUpdateBlocks dt ic zeros
        match dtShiftGo blocks zeros ic (blocks.length + 1) with
        | none => none
        | some (b2, j) =>
          dtCompactGo bc b2 d2 (ic + 1) 0 ((j : Int) - (zeros : Int)) rem

/-- `DT._compact`: returns the compacted blocks, the rewritten directory and
the value `block_count - i` the source computes from its loop variable. -/
def dtCompact (bc : Nat) (blocks : List Int) (dt : List (Int × DTFile)) :
    Option (List Int × List (Int × DTFile) × Int) :=
  dtCompactGo bc blocks dt 0 0 0 bc

/-- The `for i in range(start, start + cnt)` fill loop of `create_file` and
`extend`: write the drawn payload into `cnt` consecutive cells. -/
def fillRange (blocks : List Int) (start : Int) (cnt : Nat) (fill : Int) :
    Option (List Int) :=
  match cnt with
  | 0 => some blocks
  | c + 1 =>
    match pySet blocks start fill with
    | none => none
    | some b2 => fillRange b2 (start + 1) c fill

/-- The `while start == -1: compact; retry` loop of `DT.create_file`; the
fuel bounds the number of compaction rounds attempted. -/
def dtFindStartLoop (fuel bc : Nat) (blocks : List Int)
    (dt : List (Int × DTFile)) (need : Int) :
    Option (Int × List Int × List (Int × DTFile)) :=
  match dtFirstFit blocks bc need with
  | none => none
  | some s =>
    if s = -1 then
      match fuel with
      | 0 => none
      | f + 1 =>
        match dtCompact bc blocks dt with
        | none => none
        | some (b2, d2, _) => dtFindStartLoop f bc b2 d2 need
    else some (s, blocks, dt)

/-- `DT.create_file`. -/
def dtCreateFile (fuel : Nat) (st : DTState) (file_id file_length fill : Int) :
    Option (Bool × DTState) :=
  if (dtLookup st.dt file_id).isSome then some (false, st)
  else if file_length < 1 then some (false, st)
  else
    let need := byteToBlock st.block_size file_length
    if st.capacity < need then some (false, st)
    else
      match dtFindStartLoop fuel st.block_count st.blocks st.dt need with
      | none => none
      | some (start, b2, d2) =>
        let d3 := d2 ++ [(file_id, (⟨start, file_length⟩ : DTFile))]
        match fillRange b2 start need.toNat fill with
        | none => none
        | some b3 =>
          some (true, { st with
                          blocks := b3
                          dt := d3
                          capacity := st.capacity - need
                          size := st.size + need })

/-- The value `DT.access` hands back to the harness: Python `False` on a
rejected call, a block index otherwise. -/
inductive AccessRet where
  | fail : AccessRet
  | idx : Int → AccessRet
deriving DecidableEq, Repr

/-- Python truthiness of an `access` result, as tested by the harness with
`if not method.access(...)`: `False` and the integer 0 are both falsy. -/
def accessTruthy : AccessRet → Bool
  | AccessRet.fail => false
  | AccessRet.idx n => decide (n ≠ 0)

/-- `DT.access`: no mutation, returns `False` on the three rejection
conditions and `p + byteToBlock(byte_offset) - 1` otherwise. -/
def dtAccess (st : DTState) (file_id byte_offset : Int) : AccessRet :=
  match dtLookup st.dt file_id with
  | none => AccessRet.fail
  | some f =>
    if byte_offset < 1 then AccessRet.fail
    else if f.s < byte_offset then AccessRet.fail
    else AccessRet.idx (f.p + byteToBlock st.block_size byte_offset - 1)

/-- Forward scan of `DT._defragment`: from `j`, count and skip the nonzero
cells until a free cell; returns the stop position and the accumulated
`nonzero` counter.  Fuel as in `dtShiftGo`. -/
def dtDefragGo (blocks : List Int) (j nonzero : Int) :
    Nat → Option (Int × Int)
  | 0 => none
  | fuel + 1 =>
    match pyGet blocks j with
    | none => none
    | some b =>
      if b = 0 then some (j, nonzero)
      else dtDefragGo blocks (j + 1) (nonzero + 1) fuel

/-- Copy loop of `DT._defragment`: `for i in range(start+1, end)` moves each
remaining cell of the extent to the next position after `j`. -/
def dtDefragCopy (blocks : List Int) (i j : Int) :
    Nat → Option (List Int)
  | 0 => some blocks
  | c + 1 =>
    match pyGet blocks i with
    | none => none
    | some v =>
      match pySet blocks (j + 1) v with
      | none => none
      | some b1 =>
        match pySet b1 i 0 with
        | none => none
        | some b2 => dtDefragCopy b2 (i + 1) (j + 1) c

/-- `DT._defragment`: relocate the named file to the end of the occupied
region following it and advance its start pointer by the counted `nonzero`. -/
def dtDefragment (blocks : List Int) (dt : List (Int × DTFile))
    (bs file_id : Int) : Option (List Int × List (Int × DTFile)) :=
  match dtLookup dt file_id with
  | none => none
  | some f =>
    let start := f.p
    let fbs := byteToBlock bs f.s
    let endIdx := start + fbs
    match pyGet blocks start with
    | none => none
    | some key =>
      match dtDefragGo blocks (start + 1) (fbs - 1) (2 * blocks.length + 2) with
      | none => none
      | some (j, nonzero) =>
        match pySet blocks j key with
        | none => none
        | some b1 =>
          match pySet b1 start 0 with
          | none => none
          | some b2 =>
            match dtDefragCopy b2 (start + 1) j (endIdx - (start + 1)).toNat with
            | none => none
            | some b3 => some (b3, dtSetP dt file_id (f.p + nonzero))

/-- `DT.extend`.  Note two peculiarities of the source kept here: the new
recorded length is `extension * block_size` (an overwrite, not an
increment), and the compaction branch compares the `_compact` return value
with the current file block count before either defragmenting or rejecting;
a rejection in that branch still keeps the compacted blocks and directory. -/
def dtExtend (st : DTState) (file_id extension fill : Int) :
    Option (Bool × DTState) :=
  match dtLookup st.dt file_id with
  | none => some (false, st)
  | some f =>
    if extension < 1 then some (false, st)
    else if st.capacity < extension then some (false, st)
    else
      let fbs := byteToBlock st.block_size f.s
      let endPoint := f.p + fbs
      match dtAllEmpty st.blocks st.block_count endPoint extension.toNat with
      | none => none
      | some (allEmpty, _) =>
        if allEmpty then
          match fillRange st.blocks endPoint extension.toNat fill with
          | none => none
          | some b2 =>
            some (true, { st with
                            blocks := b2
                            dt := dtSetS st.dt file_id (extension * st.block_size)
                            capacity := st.capacity - extension
                            size := st.size + extension })
        else
          match dtCompact st.block_count st.blocks st.dt with
          | none => none
          | some (b2, d2, endSpaces) =>
            if fbs < endSpaces then
              match dtDefragment b2 d2 st.block_size file_id with
              | none => none
              | some (b3, d3) =>
                match dtLookup d3 file_id with
                | none => none
                | some f2 =>
                  match fillRange b3 (f2.p + fbs) extension.toNat fill with
                  | none => none
                  | some b4 =>
                    some (true, { st with
                                    blocks := b4
                                    dt := dtSetS d3 file_id
                                            (extension * st.block_size)
                                    capacity := st.capacity - extension
                                    size := st.size + extension })
            else some (false, { st with blocks := b2, dt := d2 })

/-- Zeroing loop of `DT.shrink`: free `cnt` cells walking down from `idx`. -/
def dtZeroDown (blocks : List Int) (idx : Int) :
    Nat → Option (List Int)
  | 0 => some blocks
  | c + 1 =>
    match pySet blocks idx 0 with
    | none => none
    | some b2 => dtZeroDown b2 (idx - 1) c

/-- `DT.shrink`. -/
def dtShrink (st : DTState) (file_id shrinking : Int) :
    Option (Bool × DTState) :=
  match dtLookup st.dt file_id with
  | none => some (false, st)
  | some f =>
    if shrinking < 1 then some (false, st)
    else
      let fileLength := f.s
      let fbs := byteToBlock st.block_size fileLength
      if fbs - shrinking ≤ 1 then some (false, st)
      else
        let endPoint := f.p + fbs - 1
        match dtZeroDown st.blocks endPoint shrinking.toNat with
        | none => none
        | some b2 =>
          let s2 :=
            if fileLength.fmod st.block_size = 0 then
              fileLength - shrinking * st.block_size
            else
              fileLength -
                (shrinking * (st.block_size - 1) + fileLength.fmod st.block_size)
          some (true, { st with
                          blocks := b2
                          dt := dtSetS st.dt file_id s2
                          capacity := st.capacity + shrinking
                          size := st.size - shrinking })

/-- Keep the state of a call that returned `True`, reject anything else. -/
def expectTrue (r : Option (Bool × DTState)) : Option DTState :=
  match r with
  | some (true, s) => some s
  | _ => none

/-! ## Linked allocator (`FAT`, `fat.py`)

State: `blocks` holds per-block chain values (0 = free, -1 = chain
terminator, otherwise the index of the next block), `fat` maps the table
key and each file id to the head block of its chain. -/

/-- A key of the `fat` dict: the reserved string key `'fat'` or a file id. -/
inductive FatKey where
  | table : FatKey
  | fid : Int → FatKey
deriving DecidableEq, Repr

/-- The fields of a `FAT` instance. -/
structure FATState where
  block_count : Nat
  block_size : Int
  fat_entry_size : Int
  blocks : List Int
  fat : List (FatKey × Int)
  fat_blocks : Int
  capacity : Int
  size : Int
deriving DecidableEq, Repr

/-- Lookup in the fat dict. -/
def fatLookup (fat : List (FatKey × Int)) (k : FatKey) : Option Int :=
  (fat.find? fun e => decide (e.1 = k)).map fun e => e.2

/-- Pre-linking loop of `FAT.__init__`: `blocks[i] = i + 1` for
`i in range(fat_blocks - 1)`. -/
def fatLinkGo (blocks : List Int) (i : Int) : Nat → Option (List Int)
  | 0 => some blocks
  | c + 1 =>
    match pySet blocks i (i + 1) with
    | none => none
    | some b2 => fatLinkGo b2 (i + 1) c

/-- `FAT.__init__`. -/
def fatInit (block_count : Nat) (block_size fat_entry_size : Int) :
    Option FATState :=
  let fatBlocks := byteToBlock block_size (fat_entry_size * (block_count : Int))
  match fatLinkGo (List.replicate block_count 0) 0 (fatBlocks - 1).toNat with
  | none => none
  | some b1 =>
    match pySet b1 (fatBlocks - 1) (-1) with
    | none => none
    | some b2 =>
      some { block_count := block_count
             block_size := block_size
             fat_entry_size := fat_entry_size
             blocks := b2
             fat := [(FatKey.table, 0)]
             fat_blocks := fatBlocks
             capacity := (block_count : Int) - fatBlocks
             size := 0 }

/-- Scan loop of `FAT._allocate_fat`: for each free block found from the
search start, either plant the terminator at the current chain end (when one
block remains) and stop, or link the chain end to the found block and keep
going.  Returns the blocks together with the final chain end and remaining
count, to which the source then applies one more terminator check. -/
def fatAllocGo (blocks : List Int) (i : Int) (endIndex remaining : Int) :
    Nat → Option (List Int × Int × Int)
  | 0 => some (blocks, endIndex, remaining)
  | c + 1 =>
    match pyGet blocks i with
    | none => none
    | some b =>
      if b = 0 then
        if remaining = 1 then
          match pySet blocks endIndex (-1) with
          | none => none
          | some b2 => some (b2, endIndex, remaining)
        else
          match pySet blocks endIndex i with
          | none => none
          | some b2 => fatAllocGo b2 (i + 1) i (remaining - 1) c
      else fatAllocGo blocks (i + 1) endIndex remaining c

/-- `FAT._allocate_fat` (the trailing `if blocks == 1` write runs after the
loop whether it broke or ran out; after a break it rewrites the same cell
with the same terminator). -/
def fatAllocate (blocks : List Int) (bc : Nat)
    (endIndex searchStarts remaining : Int) : Option (List Int) :=
  match fatAllocGo blocks searchStarts endIndex remaining
      ((bc : Int) - searchStarts).toNat with
  | none => none
  | some (b2, e2, r2) =>
    if r2 = 1 then pySet b2 e2 (-1) else some b2

/-- Head-search loop of `FAT.create_file`: find the first free block at or
after `fat_blocks`, record it as the head of the new file and allocate the
rest of the chain; if no free block exists the loop just ends and the call
still returns `True`. -/
def fatCreateScan (st1 : FATState) (file_id fbc : Int) (i : Int) :
    Nat → Option (Bool × FATState)
  | 0 => some (true, st1)
  | c + 1 =>
    match pyGet st1.blocks i with
    | none => none
    | some b =>
      if b = 0 then
        match fatAllocate st1.blocks st1.block_count i (i + 1) fbc with
        | none => none
        | some b2 =>
          some (true, { st1 with
                          blocks := b2
                          fat := st1.fat ++ [(FatKey.fid file_id, i)] })
      else fatCreateScan st1 file_id fbc (i + 1) c

/-- `FAT.create_file` (note: the capacity and size counters are updated
before the head search). -/
def fatCreate (st : FATState) (file_id file_length : Int) :
    Option (Bool × FATState) :=
  if (fatLookup st.fat (FatKey.fid file_id)).isSome then some (false, st)
  else if file_length < 0 then some (false, st)
  else
    let fbc := byteToBlock st.block_size file_length
    if st.capacity < fbc then some (false, st)
    else
      let st1 := { st with
                     capacity := st.capacity - fbc
                     size := st.size + fbc }
      fatCreateScan st1 file_id fbc st.fat_blocks
        ((st.block_count : Int) - st.fat_blocks).toNat

/-- `FAT._find_size`: walk the chain from `cur` until the terminator,
counting hops.  The fuel only guards against a cyclic chain, on which the
source would not return either. -/
def fatFindSizeGo (blocks : List Int) (cur acc : Int) : Nat → Option Int
  | 0 => none
  | fuel + 1 =>
    if cur = -1 then some acc
    else
      match pyGet blocks cur with
      | none => none
      | some v => fatFindSizeGo blocks v (acc + 1) fuel

/-- The value a Python method call hands back when the source either
returns an explicit boolean or falls off the end of the function. -/
inductive PyRet where
  | pyNone : PyRet
  | pyBool : Bool → PyRet
deriving DecidableEq, Repr

/-- The `while True` loop of `FAT.shrink`: hop along the chain counting
nodes; once the count reaches the retained length, plant the terminator
there and reset every following node to free, stopping after the node whose
successor-value reads -1.  Fuel as in `fatFindSizeGo`. -/
def fatShrinkGo (blocks : List Int) (keep cur ds : Int) :
    Nat → Option (List Int)
  | 0 => none
  | fuel + 1 =>
    let ds2 := ds + 1
    if keep ≤ ds2 then
      match pyGet blocks cur with
      | none => none
      | some nxt =>
        match pySet blocks cur (if ds2 = keep then -1 else 0) with
        | none => none
        | some b1 =>
          match pyGet b1 nxt with
          | none => none
          | some v =>
            if v = -1 then pySet b1 nxt 0
            else fatShrinkGo b1 keep nxt ds2 fuel
    else
      match pyGet blocks cur with
      | none => none
      | some nxt => fatShrinkGo blocks keep nxt ds2 fuel

/-- `FAT.shrink`.  All three rejections return `False`; the success path
falls off the end of the Python function, i.e. returns `None`. -/
def fatShrink (st : FATState) (file_id shrinking : Int) :
    Option (PyRet × FATState) :=
  match fatLookup st.fat (FatKey.fid file_id) with
  | none => some (PyRet.pyBool false, st)
  | some head =>
    if shrinking < 0 then some (PyRet.pyBool false, st)
    else
      match fatFindSizeGo st.blocks head 0 (st.blocks.length + 1) with
      | none => none
      | some fileSize =>
        if fileSize - shrinking < 1 then some (PyRet.pyBool false, st)
        else
          match fatShrinkGo st.blocks (fileSize - shrinking) head 0
              (2 * st.blocks.length + 2) with
          | none => none
          | some b2 =>
            some (PyRet.pyNone, { st with
                                    blocks := b2
                                    capacity := st.capacity + shrinking
                                    size := st.size - shrinking })

/-! ## Derived notions and concrete runs used by the claim theorems -/

/-- Sum over the directory of the block counts the records account for:
`Σ_files byteToBlock(length)`. -/
def dtBlocksUsedSum (s : DTState) : Int :=
  s.dt.foldl (fun acc e => acc + byteToBlock s.block_size e.2.s) 0

/-- All `cnt` cells from `p` upward are occupied (in range and nonzero). -/
def extentOccupied (blocks : List Int) (p : Int) : Nat → Bool
  | 0 => true
  | c + 1 =>
    (match pyGet blocks (p + (c : Int)) with
     | some v => decide (v ≠ 0)
     | none => false) &&
    extentOccupied blocks p c

/-- Every directory record points at `byteToBlock(length)` occupied cells:
the consistency between the directory and the block array that compaction
is supposed to preserve. -/
def dtExtentsOk (bs : Int) (blocks : List Int) (dt : List (Int × DTFile)) :
    Bool :=
  dt.all fun e => extentOccupied blocks e.2.p (byteToBlock bs e.2.s).toNat

/-- Run for C1 and C3: on `DT(block_size=2, block_count=4)`, create file 1
with 4 bytes (2 blocks), then extend it by 1 block; both calls return
`True`. -/
def c1run : Option DTState := do
  let s1 ← expectTrue (dtCreateFile 9 (dtInit 2 4) 1 4 1)
  expectTrue (dtExtend s1 1 1 1)

/-- Reachable state for C2 and C4: on `DT(block_size=1, block_count=10)`,
create files 1, 2, 3 of 3 bytes each (extents `[0..2]`, `[3..5]`, `[6..8]`),
then shrink files 1 and 2 by one block, freeing cells 2 and 5. -/
def c2pre : Option DTState := do
  let s1 ← expectTrue (dtCreateFile 9 (dtInit 1 10) 1 3 1)
  let s2 ← expectTrue (dtCreateFile 9 s1 2 3 2)
  let s3 ← expectTrue (dtCreateFile 9 s2 3 3 3)
  let s4 ← expectTrue (dtShrink s3 1 1)
  expectTrue (dtShrink s4 2 1)

/-- The result of running `_compact` on `c2pre`. -/
def c2post : Option (List Int × List (Int × DTFile) × Int) :=
  c2pre.bind fun s => dtCompact s.block_count s.blocks s.dt

/-- For C4: create file 4 (2 blocks) on `c2pre`; the call first-fit misses,
compacts, and then allocates, so a compaction intervenes between the two
`access` calls compared in the theorem. -/
def c4post : Option DTState :=
  c2pre.bind fun s => expectTrue (dtCreateFile 9 s 4 2 4)

/-- Reachable state for C5: on `DT(block_size=1, block_count=4)`, create
file 1 with 2 bytes (extent `[0..1]`) and file 2 with 1 byte (extent
`[2]`); one free block remains. -/
def c5pre : Option DTState := do
  let s1 ← expectTrue (dtCreateFile 9 (dtInit 1 4) 1 2 1)
  expectTrue (dtCreateFile 9 s1 2 1 2)

/-- Reachable state for C6: as `c2pre` but on
`DT(block_size=1, block_count=9)`, so that after the shrinks the last block
is occupied while interior holes exist. -/
def c6pre : Option DTState := do
  let s1 ← expectTrue (dtCreateFile 9 (dtInit 1 9) 1 3 1)
  let s2 ← expectTrue (dtCreateFile 9 s1 2 3 2)
  let s3 ← expectTrue (dtCreateFile 9 s2 3 3 3)
  let s4 ← expectTrue (dtShrink s3 1 1)
  expectTrue (dtShrink s4 2 1)

/-- Reachable state for C9: on `DT(block_size=1, block_count=6)`, create
file 1 (3 bytes), file 2 (2 bytes), then shrink file 1 by one block,
freeing cell 2; two free blocks remain. -/
def c9pre : Option DTState := do
  let s1 ← expectTrue (dtCreateFile 9 (dtInit 1 6) 1 3 1)
  let s2 ← expectTrue (dtCreateFile 9 s1 2 2 2)
  expectTrue (dtShrink s2 1 1)

/-- The attempt, on `c9pre`, to extend file 1 by 2 blocks (capacity 2
suffices, but the cells after the extent are not all free). -/
def c9res : Option (Bool × DTState) :=
  c9pre.bind fun s => dtExtend s 1 2 9

/-- Reachable state for C10: on `DT(block_size=10, block_count=6)`, create
file 1 with 10 bytes; its single block is block 0. -/
def c10pre : Option DTState :=
  expectTrue (dtCreateFile 9 (dtInit 10 6) 1 10 1)

/-- Run for C7: on `FAT(block_count=8, block_size=4, fat_entry_size=2)`
(4 reserved table blocks), create file 1 with 8 bytes (chain `4 → 5`), then
shrink it by one block. -/
def c7run : Option (PyRet × FATState) :=
  (fatInit 8 4 2).bind fun s0 =>
    match fatCreate s0 1 8 with
    | some (true, s1) => fatShrink s1 1 1
    | _ => none

/-- The state of `c7run` before the shrink, for comparison. -/
def c7mid : Option FATState :=
  (fatInit 8 4 2).bind fun s0 =>
    match fatCreate s0 1 8 with
    | some (true, s1) => some s1
    | _ => none
/-- Ceiling characterisation of `byteToBlock`: for a positive block size and
nonnegative byte count, the result `b` is the unique integer with
`n ≤ b * bs < n + bs`, i.e. `b = ⌈n / bs⌉`. -/
theorem byteToBlock_char (bs n : Int) (hbs : 0 < bs) (hn : 0 ≤ n) :
    n ≤ byteToBlock bs n * bs ∧ byteToBlock bs n * bs < n + bs := by
  have hsum : bs * n.fdiv bs + n.fmod bs = n := Int.fdiv_add_fmod n bs
  have hr0 : 0 ≤ n.fmod bs := Int.fmod_nonneg' n hbs
  have hrlt : n.fmod bs < bs := Int.fmod_lt_of_pos n hbs
  unfold byteToBlock
  by_cases h : n.fmod bs = 0
  · rw [if_pos h]
    constructor
    · nlinarith
    · nlinarith
  · rw [if_neg h]
    have hr1 : 1 ≤ n.fmod bs := by omega
    constructor
    · nlinarith
    · nlinarith

/-- Monotonicity of `byteToBlock` in the byte count, for nonnegative counts. -/
theorem byteToBlock_mono (bs m n : Int) (hbs : 0 < bs) (hm : 0 ≤ m)
    (hmn : m ≤ n) : byteToBlock bs m ≤ byteToBlock bs n := by
  have hn : 0 ≤ n := le_trans hm hmn
  obtain ⟨hm1, hm2⟩ := byteToBlock_char bs m hbs hm
  obtain ⟨hn1, hn2⟩ := byteToBlock_char bs n hbs hn
  by_contra hlt
  push_neg at hlt
  have : byteToBlock bs n + 1 ≤ byteToBlock bs m := by omega
  nlinarith

/-- `byteToBlock` sends an exact multiple of the block size to the factor. -/
theorem byteToBlock_mul (bs k : Int) (hbs : 0 < bs) :
    byteToBlock bs (k * bs) = k := by
  unfold byteToBlock
  rw [if_pos (Int.mul_fmod_left k bs)]
  exact Int.mul_fdiv_cancel k (ne_of_gt hbs)

/-- C8: the shared byte-to-block translation is ceiling division for every
nonnegative byte count: the result `b` satisfies `n ≤ b * bs < n + bs`
(the defining property of `⌈n / bs⌉`), it yields `0` at `n = 0`, it is
monotone nondecreasing, and it maps `k * bs` to `k` for every `k ≥ 0`. -/
theorem byteToBlock_is_ceiling_division (bs n m k : Int) (hbs : 0 < bs)
    (hn : 0 ≤ n) (hm : 0 ≤ m) (hmn : m ≤ n) (hk : 0 ≤ k) :
    (n ≤ byteToBlock bs n * bs ∧ byteToBlock bs n * bs < n + bs) ∧
    byteToBlock bs 0 = 0 ∧
    byteToBlock bs m ≤ byteToBlock bs n ∧
    byteToBlock bs (k * bs) = k := by
  refine ⟨byteToBlock_char bs n hbs hn, ?_, byteToBlock_mono bs m n hbs hm hmn,
    byteToBlock_mul bs k hbs⟩
  unfold byteToBlock
  simp

/-- Witness for C8 at block size 3, byte counts 4 ≤ 7, factor 5. -/
theorem byteToBlock_is_ceiling_division_witness :
    ((7 : Int) ≤ byteToBlock 3 7 * 3 ∧ byteToBlock 3 7 * 3 < 7 + 3) ∧
    byteToBlock 3 0 = 0 ∧
    byteToBlock 3 4 ≤ byteToBlock 3 7 ∧
    byteToBlock 3 (5 * 3) = 5 :=
  byteToBlock_is_ceiling_division 3 7 4 5 (by decide) (by decide) (by decide)
    (by decide) (by decide)

/-- C1: the accounting invariant
`capacity + Σ_files blocks_used(file) + reserved_blocks = block_count`
fails on the contiguous allocator after a public-operation sequence: on
`DT(2, 4)`, after `create_file(1, 4)` and a successful `extend(1, 1)`,
capacity is 1 and the directory accounts for 1 block, so the left side is 2
while `block_count` is 4 (`extend` overwrites the recorded length with
`extension * block_size` instead of adding to it). -/
theorem dt_accounting_invariant_fails :
    (c1run.map fun s =>
        decide (s.capacity + dtBlocksUsedSum s = (s.block_count : Int)))
      = some false := by
  decide

/-- C3: on `c1run` the extend succeeded, capacity did drop by the extension,
but the recorded length afterwards is `1 * block_size = 2` bytes, not the
claimed `4 + 1 * block_size = 6` bytes: the source overwrites `s` rather
than adding to it. -/
theorem dt_extend_overwrites_length :
    (c1run.map fun s => (dtLookup s.dt 1).map DTFile.s) = some (some 2) ∧
    (c1run.map fun s => (dtLookup s.dt 1).map DTFile.s)
      ≠ some (some (4 + 1 * 2)) ∧
    (c1run.map fun s => s.capacity) = some 1 := by
  decide

/-- C2: running `_compact` on the reachable state `c2pre` leaves the
directory inconsistent with the block array: before compaction every record
points at fully occupied cells, afterwards the record of file 3 claims
start 5 with 3 blocks while its data was moved to cells 4..6 and cell 7 is
free, so the post-compaction extents are not valid as the claim states. -/
theorem dt_compaction_corrupts_record :
    (c2pre.map fun s => dtExtentsOk s.block_size s.blocks s.dt) = some true ∧
    (c2post.map fun r => dtExtentsOk 1 r.1 r.2.1) = some false ∧
    (c2post.map fun r => dtLookup r.2.1 3) = some (some (⟨5, 3⟩ : DTFile)) ∧
    (c2post.map fun r => pyGet r.1 7) = some (some 0) := by
  decide

set_option maxHeartbeats 2000000 in
/-- C4: `access` is not independent of compaction history.  On `c2pre`,
`access(3, 3)` returns block 8, whose payload is the fill of file 3; after
`create_file(4, 2)` (which compacts internally), the same call returns
block 7, whose payload is the fill of file 4 — compaction left the start
pointer of file 3 pointing one block past its relocated data. -/
theorem dt_access_depends_on_compaction :
    (c2pre.map fun s => dtAccess s 3 3) = some (AccessRet.idx 8) ∧
    (c2pre.map fun s => pyGet s.blocks 8) = some (some 3) ∧
    (c4post.map fun s => dtAccess s 3 3) = some (AccessRet.idx 7) ∧
    (c4post.map fun s => pyGet s.blocks 7) = some (some 4) := by
  decide

/-- C5: on the reachable state `c5pre`, file 1 is known, the extension 1 is
positive and capacity 1 suffices, yet `extend(1, 1)` returns `False`: the
cell after the extent of file 1 is occupied, `_compact` reports
`block_count - i = 1` trailing free blocks regardless of the actual layout,
`1 > file_block_size` fails, and the call rejects. -/
theorem dt_extend_rejects_despite_capacity :
    (c5pre.map fun s => (dtLookup s.dt 1).isSome) = some true ∧
    (c5pre.map fun s => decide ((1 : Int) ≤ s.capacity)) = some true ∧
    (c5pre.bind fun s => (dtExtend s 1 1 7).map Prod.fst) = some false := by
  decide

/-- C6: the retry loop of `create_file` does not terminate with a run found
on the reachable state `c6pre`, although the preconditions hold (file 4 is
new, 2 bytes need 2 blocks, capacity is 2): the first `_compact` shifts the
run ending at the last block and its inner while loop reads
`blocks[block_count]`, an IndexError, so `create_file` raises for every
number of retry rounds. -/
theorem dt_create_retry_crashes :
    (c6pre.map fun s =>
        decide (dtLookup s.dt 4 = none ∧
          byteToBlock s.block_size 2 ≤ s.capacity)) = some true ∧
    (c6pre.bind fun s => dtCompact s.block_count s.blocks s.dt) = none ∧
    ∀ fuel : Nat, (c6pre.bind fun s => dtCreateFile fuel s 4 2 4) = none := by
  refine ⟨by decide, by decide, fun fuel => ?_⟩
  cases fuel with
  | zero => rfl
  | succ n => rfl

/-- C7: a successful `FAT.shrink` does not return `True`: on `c7run` the
shrink of file 1 by one block succeeds (capacity rises from 2 to 3, the
terminator is planted at block 4, block 5 is freed), but the method falls
off the end of the function and returns `None`, not a boolean. -/
theorem fat_shrink_returns_none :
    (c7run.map Prod.fst) = some PyRet.pyNone ∧
    (c7mid.map fun s => s.capacity) = some 2 ∧
    (c7run.map fun r => r.2.capacity) = some 3 ∧
    (c7run.map fun r => pyGet r.2.blocks 4) = some (some (-1)) ∧
    (c7run.map fun r => pyGet r.2.blocks 5) = some (some 0) := by
  decide

/-- C9: a failing `extend` is not atomic.  On the reachable state `c9pre`,
file 1 is known, the extension 2 is positive and capacity 2 suffices, yet
`extend(1, 2)` returns `False` — and by then compaction has already run:
the start pointer of file 2 moved from 3 to 2 and the block array changed. -/
theorem dt_extend_false_after_mutation :
    (c9res.map Prod.fst) = some false ∧
    (c9pre.map fun s =>
        decide ((dtLookup s.dt 1).isSome ∧ (2 : Int) ≤ s.capacity))
      = some true ∧
    (c9pre.map fun s => dtLookup s.dt 2) = some (some (⟨3, 2⟩ : DTFile)) ∧
    (c9res.map fun r => dtLookup r.2.dt 2) = some (some (⟨2, 2⟩ : DTFile)) ∧
    (c9res.map fun r => r.2.blocks) ≠ (c9pre.map fun s => s.blocks) := by
  decide

/-- C10: the failure value of `DT.access` collides with a legitimate
result.  On `c10pre` file 1 starts at block 0, so the valid call
`access(1, 5)` (offset within the first block) returns index 0, while the
rejected call `access(2, 5)` returns Python `False`; under the harness
truthiness test both are falsy and indistinguishable. -/
theorem dt_access_zero_collision :
    (c10pre.map fun s => dtAccess s 1 5) = some (AccessRet.idx 0) ∧
    (c10pre.map fun s => dtLookup s.dt 1) = some (some (⟨0, 10⟩ : DTFile)) ∧
    (c10pre.map fun s => dtAccess s 2 5) = some AccessRet.fail ∧
    accessTruthy (AccessRet.idx 0) = accessTruthy AccessRet.fail := by
  decide
